import Mathlib

/-!
# Verification of the NBC structural-load calculator core

Shallow embedding of the hazard-data resolution and load-computation engine of
the `nbc-loads-app` repository, together with theorems settling the frozen
claims about it.

Conventions of the embedding:
* JavaScript floating-point numbers are modelled as exact numbers: `ℝ` for the
  transcendental load formulas (`exp`, `log`, `rpow`), `ℚ` for the hazard data
  plumbing (coordinates, spectral values) so that concrete runs are decidable.
* `async` network calls are modelled by passing the outcome of each remote
  request as an explicit `Except Unit _` argument (an oracle): `.error ()`
  stands for a rejected request, `.ok payload` for a fulfilled one.  Fields
  that GraphQL may omit are `Option`s; JavaScript `null`-truthiness checks
  become `Option` matches, and the truthiness of an *array* (which in
  JavaScript is true even for an empty array) becomes `Option.isSome`.
* `try`/`catch` becomes explicit control flow on the oracle outcomes; a
  function whose source can throw to its caller returns `Except String _`,
  while a function whose source catches every error (returning fallback data
  instead) is total.
-/

/-! ## Probability / return-period converter (source: `part_000`, lines 495-506) -/

/-- `getReturnPeriodFromPoe50` from `part_000`: converts a 50-year probability
of exceedance to a return period, `round (-50 / log (1 - poe50))`, with the
fixed fallback constant 2475 outside the open interval (0, 1). -/
noncomputable def getReturnPeriodFromPoe50 (poe50 : ℝ) : ℤ :=
  if poe50 ≤ 0 ∨ 1 ≤ poe50 then 2475
  else round (-50 / Real.log (1 - poe50))

/-- `getPoe50FromReturnPeriod` from `part_000`: converts a return period back
to a 50-year probability of exceedance, `1 - exp (-50 / returnPeriod)`. -/
noncomputable def getPoe50FromReturnPeriod (returnPeriod : ℝ) : ℝ :=
  1 - Real.exp (-50 / returnPeriod)

/-! ## Hazard data resolver (source: `part_000`) -/

namespace CanSHM

/-- Site class enum of the CanSHM6 GraphQL API (`part_000`). -/
inductive CanSHM6SiteClass
  | A | B | C | D | E
deriving DecidableEq, Repr

/-- One designation object of a CanSHM6 response (`part_000`,
`CanSHM6SiteDesignation`).  Every spectral field may be absent.  `vs30` is an
array in the source (returned only by the soil-velocity query), hence
`Option (List ℚ)` here. -/
structure CanSHM6SiteDesignation where
  sa0p05 : Option ℚ := none
  sa0p1 : Option ℚ := none
  sa0p2 : Option ℚ := none
  sa0p3 : Option ℚ := none
  sa0p5 : Option ℚ := none
  sa1p0 : Option ℚ := none
  sa2p0 : Option ℚ := none
  sa5p0 : Option ℚ := none
  sa10p0 : Option ℚ := none
  poe50 : Option ℚ := none
  foe : Option ℚ := none
  pga : Option ℚ := none
  pgv : Option ℚ := none
  vs30 : Option (List ℚ) := none
deriving DecidableEq

/-- Response metadata (`part_000`, `CanSHM6Metadata`). -/
structure CanSHM6Metadata where
  projX : ℚ := 0
  projY : ℚ := 0
  zones : Option (List String) := none
deriving DecidableEq

/-- The `NBC2020` payload of a response (`part_000`, `CanSHM6Point`).  The
unused `geometry` field is omitted; either designation list may be absent. -/
structure CanSHM6Point where
  metadata : CanSHM6Metadata := {}
  siteDesignationsXs : Option (List CanSHM6SiteDesignation) := none
  siteDesignationsXv : Option (List CanSHM6SiteDesignation) := none
deriving DecidableEq

/-- Resolved hazard record (`part_000`, `SeismicHazardData`).  `returnPeriod`
is an integer number of years; `vs30` is `Option` because the source can store
`undefined` there (indexing an empty `vs30` array). -/
structure SeismicHazardData where
  location : String
  latitude : ℚ
  longitude : ℚ
  pga : ℚ
  pgv : ℚ
  sa0p05 : ℚ
  sa0p1 : ℚ
  sa0p2 : ℚ
  sa0p3 : ℚ
  sa0p5 : ℚ
  sa1p0 : ℚ
  sa2p0 : ℚ
  sa5p0 : ℚ
  sa10p0 : ℚ
  returnPeriod : ℤ
  siteClass : CanSHM6SiteClass
  vs30 : Option ℚ
  zones : Option (List String) := none

/-- `getVs30FromSiteClass` (`part_000`): representative soil velocity for each
site class.  The source's `default: 760` branch is unreachable because the
site-class type has exactly the five constructors. -/
def getVs30FromSiteClass : CanSHM6SiteClass → ℚ
  | .A => 1500
  | .B => 1100
  | .C => 560
  | .D => 270
  | .E => 135

/-- The static fallback dataset `FALLBACK_SEISMIC_DATA` (`part_000`): five
precomputed records for major cities. -/
def FALLBACK_SEISMIC_DATA : List SeismicHazardData :=
  [{ location := "Toronto, ON", latitude := 43.6532, longitude := -79.3832,
     pga := 0.21, pgv := 0.15, sa0p05 := 0.45, sa0p1 := 0.50, sa0p2 := 0.55,
     sa0p3 := 0.45, sa0p5 := 0.28, sa1p0 := 0.12, sa2p0 := 0.04, sa5p0 := 0.02,
     sa10p0 := 0.01, returnPeriod := 2475, siteClass := .C, vs30 := some 760 },
   { location := "Montreal, QC", latitude := 45.5017, longitude := -73.5673,
     pga := 0.32, pgv := 0.22, sa0p05 := 0.68, sa0p1 := 0.75, sa0p2 := 0.78,
     sa0p3 := 0.65, sa0p5 := 0.41, sa1p0 := 0.18, sa2p0 := 0.06, sa5p0 := 0.03,
     sa10p0 := 0.015, returnPeriod := 2475, siteClass := .C, vs30 := some 760 },
   { location := "Vancouver, BC", latitude := 49.2827, longitude := -123.1207,
     pga := 0.45, pgv := 0.35, sa0p05 := 0.95, sa0p1 := 1.05, sa0p2 := 1.12,
     sa0p3 := 0.95, sa0p5 := 0.58, sa1p0 := 0.24, sa2p0 := 0.08, sa5p0 := 0.04,
     sa10p0 := 0.02, returnPeriod := 2475, siteClass := .C, vs30 := some 760 },
   { location := "Calgary, AB", latitude := 51.0447, longitude := -114.0719,
     pga := 0.08, pgv := 0.05, sa0p05 := 0.18, sa0p1 := 0.20, sa0p2 := 0.22,
     sa0p3 := 0.18, sa0p5 := 0.11, sa1p0 := 0.05, sa2p0 := 0.02, sa5p0 := 0.01,
     sa10p0 := 0.005, returnPeriod := 2475, siteClass := .C, vs30 := some 760 },
   { location := "Ottawa, ON", latitude := 45.4215, longitude := -75.6972,
     pga := 0.28, pgv := 0.18, sa0p05 := 0.62, sa0p1 := 0.68, sa0p2 := 0.71,
     sa0p3 := 0.58, sa0p5 := 0.37, sa1p0 := 0.16, sa2p0 := 0.05, sa5p0 := 0.025,
     sa10p0 := 0.012, returnPeriod := 2475, siteClass := .C, vs30 := some 760 }]

/-- Which query strategy produced a designation (`'siteClass' | 'vs30'` in
`processSiteDesignations`). -/
inductive DataType
  | siteClass | vs30
deriving DecidableEq

/-- Location label built from the raw coordinates.  The source formats with
`toFixed(4)`; the claims do not depend on the label text, so the exact
rational rendering stands in for the 4-decimal formatting. -/
def coordLabel (latitude longitude : ℚ) : String :=
  toString latitude ++ ", " ++ toString longitude

/-- The record pushed for one designation inside `processSiteDesignations`
(`part_000`, lines 463-490).  JavaScript `x || 0` on an optional number is
`Option.getD 0`; the `designation.poe50 ?` truthiness test is false at 0, and
an empty `vs30` array (truthy in JavaScript) yields an undefined `vs30`
(`List.head?` of `[]`). -/
noncomputable def designationToRecord (nbcData : CanSHM6Point)
    (latitude longitude : ℚ) (siteClass : CanSHM6SiteClass) (dataType : DataType)
    (designation : CanSHM6SiteDesignation) : SeismicHazardData :=
  let calculatedReturnPeriod : ℤ :=
    match designation.poe50 with
    | some p => if p = 0 then 2475 else getReturnPeriodFromPoe50 (p : ℝ)
    | none => 2475
  let vs30Value : Option ℚ :=
    match dataType with
    | .siteClass => some (getVs30FromSiteClass siteClass)
    | .vs30 =>
      match designation.vs30 with
      | some l => l.head?
      | none => some (getVs30FromSiteClass siteClass)
  { location := coordLabel latitude longitude
    latitude := latitude
    longitude := longitude
    pga := designation.pga.getD 0
    pgv := designation.pgv.getD 0
    sa0p05 := designation.sa0p05.getD 0
    sa0p1 := designation.sa0p1.getD 0
    sa0p2 := designation.sa0p2.getD 0
    sa0p3 := designation.sa0p3.getD 0
    sa0p5 := designation.sa0p5.getD 0
    sa1p0 := designation.sa1p0.getD 0
    sa2p0 := designation.sa2p0.getD 0
    sa5p0 := designation.sa5p0.getD 0
    sa10p0 := designation.sa10p0.getD 0
    returnPeriod := calculatedReturnPeriod
    siteClass := siteClass
    vs30 := vs30Value
    zones := nbcData.metadata.zones }

/-- `processSiteDesignations` (`part_000`, lines 448-493): transform the
designations of the selected strategy into hazard records, one per
designation, throwing when the selected designation list is absent.  The
unused `returnPeriods` parameter of the source is kept. -/
noncomputable def processSiteDesignations (nbcData : CanSHM6Point)
    (latitude longitude : ℚ) (siteClass : CanSHM6SiteClass)
    (returnPeriods : List ℚ) (dataType : DataType) :
    Except String (List SeismicHazardData) :=
  let designations :=
    match dataType with
    | .siteClass => nbcData.siteDesignationsXs
    | .vs30 => nbcData.siteDesignationsXv
  match designations with
  | none => .error "No site designations available for this location"
  | some ds =>
    .ok (ds.map (designationToRecord nbcData latitude longitude siteClass dataType))

/-- The resolver stages, in the order the source attempts them. -/
inductive Stage
  | siteClassQuery | vs30Query | fallbackTable | genericFallback
deriving DecidableEq, Repr

/-- Outcome of the inner `try` around the site-class query
(`getSeismicHazardDataBySiteClass`, lines 283-293): `some records` when the
request fulfilled with a truthy `NBC2020` carrying a `siteDesignationsXs`
field (a present array is truthy even when empty), `none` when the request
rejected or the payload lacks the field, sending control to the vs30 stage. -/
noncomputable def stage1Result (xsResult : Except Unit (Option CanSHM6Point))
    (latitude longitude : ℚ) (siteClass : CanSHM6SiteClass)
    (returnPeriods : List ℚ) : Option (List SeismicHazardData) :=
  match xsResult with
  | .ok (some pt) =>
    if pt.siteDesignationsXs.isSome then
      match processSiteDesignations pt latitude longitude siteClass returnPeriods .siteClass with
      | .ok r => some r
      | .error _ => none
    else none
  | _ => none

/-- Outcome of the vs30 query stage (`getSeismicHazardDataBySiteClass`, lines
295-312): any rejection, absent `NBC2020`, absent `siteDesignationsXv`, or
processing error is caught by the outer `catch`, so it yields `none` and
control falls to the static fallback. -/
noncomputable def stage2Result (xvResult : Except Unit (Option CanSHM6Point))
    (latitude longitude : ℚ) (siteClass : CanSHM6SiteClass)
    (returnPeriods : List ℚ) : Option (List SeismicHazardData) :=
  match xvResult with
  | .ok (some pt) =>
    if pt.siteDesignationsXv.isSome then
      match processSiteDesignations pt latitude longitude siteClass returnPeriods .vs30 with
      | .ok r => some r
      | .error _ => none
    else none
  | _ => none

/-- The generic conservative record synthesized when no fallback entry is
within tolerance (`getSeismicHazardDataBySiteClass`, lines 330-348). -/
noncomputable def genericFallbackRecord (latitude longitude : ℚ)
    (siteClass : CanSHM6SiteClass) : SeismicHazardData :=
  { location := coordLabel latitude longitude,
    latitude := latitude,
    longitude := longitude,
    pga := 0.15, pgv := 0.10, sa0p05 := 0.30, sa0p1 := 0.32, sa0p2 := 0.35,
    sa0p3 := 0.28, sa0p5 := 0.20, sa1p0 := 0.10, sa2p0 := 0.03, sa5p0 := 0.015,
    sa10p0 := 0.008,
    returnPeriod := 2475,
    siteClass := siteClass,
    vs30 := some (getVs30FromSiteClass siteClass) }

/-- `getSeismicHazardDataBySiteClass` (`part_000`, lines 266-350), with the
two remote request outcomes passed as oracles and the list of attempted stages
recorded alongside the result.  The outer `catch` makes the function total:
every path returns a list of records. -/
noncomputable def getSeismicHazardDataBySiteClassTraced
    (xsResult xvResult : Except Unit (Option CanSHM6Point))
    (latitude longitude : ℚ) (siteClass : CanSHM6SiteClass)
    (returnPeriods : List ℚ) : List SeismicHazardData × List Stage :=
  match stage1Result xsResult latitude longitude siteClass returnPeriods with
  | some r => (r, [Stage.siteClassQuery])
  | none =>
    match stage2Result xvResult latitude longitude siteClass returnPeriods with
    | some r => (r, [Stage.siteClassQuery, Stage.vs30Query])
    | none =>
      match FALLBACK_SEISMIC_DATA.find? (fun d =>
          decide (|d.latitude - latitude| < 0.1) &&
          decide (|d.longitude - longitude| < 0.1)) with
      | some fallback =>
        ([{ fallback with
            vs30 := some (getVs30FromSiteClass siteClass)
            siteClass := siteClass }],
         [Stage.siteClassQuery, Stage.vs30Query, Stage.fallbackTable])
      | none =>
        ([genericFallbackRecord latitude longitude siteClass],
         [Stage.siteClassQuery, Stage.vs30Query, Stage.fallbackTable,
          Stage.genericFallback])

/-- The resolver as its callers see it: the records without the stage trace. -/
noncomputable def getSeismicHazardDataBySiteClass
    (xsResult xvResult : Except Unit (Option CanSHM6Point))
    (latitude longitude : ℚ) (siteClass : CanSHM6SiteClass)
    (returnPeriods : List ℚ) : List SeismicHazardData :=
  (getSeismicHazardDataBySiteClassTraced xsResult xvResult latitude longitude
    siteClass returnPeriods).1

/-- The site-class stage is usable in the source's sense exactly when the
request fulfilled with a truthy `NBC2020` whose `siteDesignationsXs` field is
present (possibly an empty array). -/
def xsUsable : Except Unit (Option CanSHM6Point) → Bool
  | .ok (some pt) => pt.siteDesignationsXs.isSome
  | _ => false

/-- Same usability test for the vs30 stage. -/
def xvUsable : Except Unit (Option CanSHM6Point) → Bool
  | .ok (some pt) => pt.siteDesignationsXv.isSome
  | _ => false

/-- Concrete payload whose site-class designation list is present but empty:
the response is truthy in the source's check, yet carries no designations. -/
def ptEmptyXs : CanSHM6Point := { siteDesignationsXs := some [] }

/-- Concrete payload whose vs30 designation list holds one designation. -/
def ptOneXv : CanSHM6Point :=
  { siteDesignationsXv := some [{ sa0p2 := some 0.35, sa1p0 := some 0.10 }] }

end CanSHM

/-! ## Nearest-city fallback variant (source: `src/app/utils/seismic-api.ts`) -/

namespace SeismicApi

/-- Hazard record of the simplified API module (`seismic-api.ts`,
`SeismicHazardData`). -/
structure SeismicHazardData where
  location : String
  latitude : ℚ
  longitude : ℚ
  PGA : ℚ
  Sa02 : ℚ
  Sa10 : ℚ
  Sa20 : ℚ
  Sa50 : ℚ
  returnPeriod : ℤ
  probabilityLevel : ℚ
  siteClass : String
deriving DecidableEq

/-- One entry of the static city catalog (`seismic-api.ts`, `MAJOR_CITIES`). -/
structure CityEntry where
  name : String
  province : String
  latitude : ℚ
  longitude : ℚ
deriving DecidableEq

/-- `MAJOR_CITIES` from `seismic-api.ts` (18 entries, iteration order as in
the source). -/
def MAJOR_CITIES : List CityEntry :=
  [⟨"Vancouver", "BC", 49.2827, -123.1207⟩,
   ⟨"Calgary", "AB", 51.0447, -114.0719⟩,
   ⟨"Toronto", "ON", 43.6532, -79.3832⟩,
   ⟨"Montreal", "QC", 45.5017, -73.5673⟩,
   ⟨"Halifax", "NS", 44.6488, -63.5752⟩,
   ⟨"Ottawa", "ON", 45.4215, -75.6972⟩,
   ⟨"Quebec City", "QC", 46.8139, -71.2080⟩,
   ⟨"Winnipeg", "MB", 49.8951, -97.1384⟩,
   ⟨"Edmonton", "AB", 53.5461, -113.4938⟩,
   ⟨"Victoria", "BC", 48.4284, -123.3656⟩,
   ⟨"Saskatoon", "SK", 52.1332, -106.6700⟩,
   ⟨"Regina", "SK", 50.4452, -104.6189⟩,
   ⟨"Fredericton", "NB", 45.9636, -66.6431⟩,
   ⟨"Charlottetown", "PE", 46.2382, -63.1311⟩,
   ⟨"St. John's", "NL", 47.5615, -52.7126⟩,
   ⟨"Whitehorse", "YT", 60.7212, -135.0568⟩,
   ⟨"Yellowknife", "NT", 62.4540, -114.3718⟩,
   ⟨"Iqaluit", "NU", 63.7467, -68.5170⟩]

/-- A `FALLBACK_SEISMIC_DATA` value (`seismic-api.ts`): a hazard record
without its `location` field. -/
structure FallbackEntry where
  latitude : ℚ
  longitude : ℚ
  PGA : ℚ
  Sa02 : ℚ
  Sa10 : ℚ
  Sa20 : ℚ
  Sa50 : ℚ
  returnPeriod : ℤ
  probabilityLevel : ℚ
  siteClass : String
deriving DecidableEq

/-- `FALLBACK_SEISMIC_DATA` from `seismic-api.ts`: keyed fallback records for
ten of the eighteen catalog cities (Saskatoon, Regina, Fredericton,
Charlottetown, St. John's, Whitehorse, Yellowknife and Iqaluit have no
entry). -/
def FALLBACK_SEISMIC_DATA : List (String × FallbackEntry) :=
  [("Vancouver", ⟨49.2827, -123.1207, 0.23, 0.65, 0.25, 0.15, 0.08, 2475, 0.02, "C"⟩),
   ("Calgary", ⟨51.0447, -114.0719, 0.03, 0.08, 0.03, 0.02, 0.01, 2475, 0.02, "C"⟩),
   ("Toronto", ⟨43.6532, -79.3832, 0.05, 0.12, 0.05, 0.03, 0.02, 2475, 0.02, "C"⟩),
   ("Montreal", ⟨45.5017, -73.5673, 0.18, 0.35, 0.15, 0.08, 0.04, 2475, 0.02, "C"⟩),
   ("Ottawa", ⟨45.4215, -75.6972, 0.18, 0.35, 0.15, 0.08, 0.04, 2475, 0.02, "C"⟩),
   ("Quebec City", ⟨46.8139, -71.2080, 0.22, 0.45, 0.20, 0.10, 0.05, 2475, 0.02, "C"⟩),
   ("Halifax", ⟨44.6488, -63.5752, 0.08, 0.18, 0.08, 0.04, 0.02, 2475, 0.02, "C"⟩),
   ("Victoria", ⟨48.4284, -123.3656, 0.27, 0.75, 0.30, 0.18, 0.10, 2475, 0.02, "C"⟩),
   ("Winnipeg", ⟨49.8951, -97.1384, 0.03, 0.08, 0.03, 0.02, 0.01, 2475, 0.02, "C"⟩),
   ("Edmonton", ⟨53.5461, -113.4938, 0.03, 0.08, 0.03, 0.02, 0.01, 2475, 0.02, "C"⟩)]

/-- Squared degree-space distance from a catalog city to the query point.
The source compares `Math.sqrt` of these quantities; since the square root is
strictly monotone on nonnegative reals (`sqrt_comparison_agrees` below),
comparing the squared distances is the same comparison, and keeps the
catalog search decidable. -/
def sqDistance (city : CityEntry) (latitude longitude : ℚ) : ℚ :=
  (city.latitude - latitude) ^ 2 + (city.longitude - longitude) ^ 2

/-- The `MAJOR_CITIES.reduce` nearest-city search of
`getSeismicHazardWithFallback`: seeded with the first catalog entry, a
strictly-closer city replaces the running choice, so the first encountered
wins ties. -/
def closestCity (latitude longitude : ℚ) : CityEntry :=
  match MAJOR_CITIES with
  | [] => ⟨"", "", 0, 0⟩
  | first :: rest =>
    rest.foldl (fun closest city =>
      if sqDistance city latitude longitude < sqDistance closest latitude longitude then
        city
      else closest) first

/-- `getSeismicHazardWithFallback` (`seismic-api.ts`, lines 184-219).  The
remote call (`getSeismicHazard`) is passed as an oracle.  On rejection the
nearest catalog city is looked up in the fallback table; a missing fallback
entry re-throws `'No fallback data available'` to the caller. -/
def getSeismicHazardWithFallback
    (apiResult : Except Unit SeismicHazardData)
    (latitude longitude : ℚ) : Except String SeismicHazardData :=
  match apiResult with
  | .ok d => .ok d
  | .error _ =>
    let c := closestCity latitude longitude
    match FALLBACK_SEISMIC_DATA.lookup c.name with
    | some fd =>
      .ok { location := c.name ++ ", " ++ c.province ++ " (Fallback)",
            latitude := fd.latitude, longitude := fd.longitude,
            PGA := fd.PGA, Sa02 := fd.Sa02, Sa10 := fd.Sa10,
            Sa20 := fd.Sa20, Sa50 := fd.Sa50,
            returnPeriod := fd.returnPeriod,
            probabilityLevel := fd.probabilityLevel,
            siteClass := fd.siteClass }
    | none => .error "No fallback data available"

end SeismicApi

/-! ## Snow load engine (source: `part_003`, lines 476-600) -/

namespace Snow

/-- Importance category of the snow calculator (`part_003`,
`importanceFactors.category`). -/
inductive ImportanceCategory
  | low | normal | high | postDisaster
deriving DecidableEq, Repr

/-- Terrain type of the snow calculator (`part_003`,
`roofParams.terrainType`: `"open" | "rural" | "exposed_north"`). -/
inductive TerrainType
  | openTerrain | rural | exposedNorth
deriving DecidableEq, Repr

/-- Roof parameters of the snow calculator (`part_003`, `roofParams`). -/
structure RoofParams where
  length : ℝ
  width : ℝ
  slope : ℝ
  height : ℝ
  isSlippery : Bool
  terrainType : TerrainType

/-- `calculateImportanceFactors` (`part_003`, lines 477-485): the fixed
four-entry table of (ULS, SLS) importance factors. -/
def calculateImportanceFactors (category : ImportanceCategory) : ℝ × ℝ :=
  match category with
  | .low => (0.8, 0.9)
  | .normal => (1.0, 0.9)
  | .high => (1.15, 0.9)
  | .postDisaster => (1.25, 0.9)

/-- `calculateSpecificWeightOfSnow` (`part_003`, lines 487-490):
`γ = min(4.0, 0.43·Ss + 2.2)`. -/
noncomputable def calculateSpecificWeightOfSnow (Ss : ℝ) : ℝ :=
  min 4.0 (0.43 * Ss + 2.2)

/-- `calculateCharacteristicLength` (`part_003`, lines 492-497):
`lc = 2w - w²/l` with `w`/`l` the smaller/larger plan dimension. -/
noncomputable def calculateCharacteristicLength (roofParams : RoofParams) : ℝ :=
  let w := min roofParams.width roofParams.length
  let l := max roofParams.width roofParams.length
  2 * w - w * w / l

/-- The long-roof (exponential) branch of the basic roof factor
(`calculateBasicRoofSnowLoadFactor`, line 513):
`(1/Cw)·[1 - (1 - 0.8·Cw)·exp(-(lc·Cw² - 70)/100)]`. -/
noncomputable def roofFactorExpBranch (Cw lc : ℝ) : ℝ :=
  (1 / Cw) * (1 - (1 - 0.8 * Cw) * Real.exp (-(lc * Cw * Cw - 70) / 100))

/-- `calculateBasicRoofSnowLoadFactor` (`part_003`, lines 499-515).  The
source reads the building height from the enclosing `roofParams`; it is an
explicit first argument here. -/
noncomputable def calculateBasicRoofSnowLoadFactor (height Ss lc Cw : ℝ) : ℝ :=
  let gamma := calculateSpecificWeightOfSnow Ss
  if height < 1 + Ss / gamma then 1.0
  else
    let threshold := 70 / (Cw * Cw)
    if lc ≤ threshold then 0.8
    else roofFactorExpBranch Cw lc

/-- `calculateWindExposureFactor` (`part_003`, lines 517-531): base 1.0, with
terrain reductions applied only for the low and normal importance
categories. -/
def calculateWindExposureFactor (category : ImportanceCategory)
    (terrainType : TerrainType) : ℝ :=
  if category = .low ∨ category = .normal then
    if terrainType = .rural then 0.75
    else if terrainType = .exposedNorth then 0.5
    else 1.0
  else 1.0

/-- `calculateSlopeFactor` (`part_003`, lines 533-547): two piecewise regimes
keyed by the slippery-surface flag. -/
noncomputable def calculateSlopeFactor (roofParams : RoofParams) : ℝ :=
  let alpha := roofParams.slope
  if roofParams.isSlippery then
    if alpha ≤ 15 then 1.0
    else if alpha ≤ 60 then (60 - alpha) / 45
    else 0
  else
    if alpha ≤ 30 then 1.0
    else if alpha ≤ 70 then (70 - alpha) / 40
    else 0

/-- `calculateAccumulationFactor` (`part_003`, lines 549-553): identically
1.0 in the basic calculator. -/
def calculateAccumulationFactor : ℝ := 1.0

/-- The bracket `Ss·(Cb·Cw·Cs·Ca) + Sr` computed inside `calculateSnowLoads`
(`part_003`, lines 561-577), with each factor obtained exactly as there. -/
noncomputable def snowBracket (Ss Sr : ℝ) (roofParams : RoofParams)
    (category : ImportanceCategory) : ℝ :=
  let Cw := calculateWindExposureFactor category roofParams.terrainType
  let lc := calculateCharacteristicLength roofParams
  let Cb := calculateBasicRoofSnowLoadFactor roofParams.height Ss lc Cw
  let Cs := calculateSlopeFactor roofParams
  let Ca := calculateAccumulationFactor
  Ss * (Cb * Cw * Cs * Ca) + Sr

/-- `calculateSnowLoads` (`part_003`, lines 555-600): the (ULS, SLS) pair
`S = Is · [Ss·(Cb·Cw·Cs·Ca) + Sr]`, once with each importance factor. -/
noncomputable def calculateSnowLoads (Ss Sr : ℝ) (roofParams : RoofParams)
    (category : ImportanceCategory) : ℝ × ℝ :=
  let Is := calculateImportanceFactors category
  (Is.1 * snowBracket Ss Sr roofParams category,
   Is.2 * snowBracket Ss Sr roofParams category)

/-- ULS importance factors as the specification's table states them. -/
def specIsULS : ImportanceCategory → ℝ
  | .low => 0.8
  | .normal => 1.0
  | .high => 1.15
  | .postDisaster => 1.25

/-- SLS importance factors as the specification's table states them. -/
def specIsSLS : ImportanceCategory → ℝ
  | .low => 0.9
  | .normal => 0.9
  | .high => 0.9
  | .postDisaster => 0.9

/-- Wind exposure factor as the specification words it: 1.0 everywhere,
except 0.75 on rural and 0.5 on exposed-north terrain, and those reductions
only for the low and normal importance categories. -/
def specWindExposure (category : ImportanceCategory)
    (terrainType : TerrainType) : ℝ :=
  match category, terrainType with
  | .low, .rural | .normal, .rural => 0.75
  | .low, .exposedNorth | .normal, .exposedNorth => 0.5
  | _, _ => 1.0

/-- Concrete roof used by witnesses: a 10 m × 10 m flat roof, 6 m above
ground, regular surface, open terrain. -/
def roofSquare10 : RoofParams :=
  { length := 10, width := 10, slope := 0, height := 6,
    isSlippery := false, terrainType := .openTerrain }

end Snow

/-! ## Wind load engine (source: `part_001`, lines 46-245) -/

namespace Wind

/-- Exposure categories (`part_001`, `exposureCategories`). -/
inductive ExposureCategory
  | A | B | C | D
deriving DecidableEq, Repr

/-- The `alpha` column of the exposure table. -/
def exposureAlpha : ExposureCategory → ℝ
  | .A => 0.15
  | .B => 0.20
  | .C => 0.28
  | .D => 0.40

/-- The `zg` column of the exposure table (carried for completeness; the
pressure formula does not read it). -/
def exposureZg : ExposureCategory → ℝ
  | .A => 460
  | .B => 370
  | .C => 270
  | .D => 210

/-- Site topography (`part_001`, `siteParams.topography`). -/
inductive Topography
  | normal | other
deriving DecidableEq, Repr

/-- Roof type: the source only ever tests `roofType === "flat"`. -/
inductive RoofType
  | flat | sloped
deriving DecidableEq, Repr

/-- Analysis mode (`part_001`, `analysisType`). -/
inductive AnalysisType
  | mwfrs | cc
deriving DecidableEq, Repr

/-- Building geometry fields read by the wind computation (`part_001`,
`buildingGeom`; the roof-slope and opening-ratio fields are display-only). -/
structure BuildingGeometry where
  length : ℝ
  width : ℝ
  height : ℝ
  roofType : RoofType

/-- One wind load result (`part_001`, `WindLoadResult`). -/
structure WindLoadResult where
  id : String
  surface : String
  pressure : ℝ
  force : ℝ
  coefficient : ℝ
  area : ℝ

/-- `pressureCoefficients` (`part_001`, lines 73-88): surface name and `Cp`
(the display-only description and zone tags are omitted).  The first six rows
are the system-level (MWFRS) coefficients, the last five the
components-and-cladding rows used by the component-level mode. -/
def pressureCoefficients : List (String × ℝ) :=
  [("Windward Wall", 0.8),
   ("Leeward Wall", -0.5),
   ("Side Wall", -0.7),
   ("Flat Roof", -0.7),
   ("Windward Roof", -0.9),
   ("Leeward Roof", -0.5),
   ("Wall Corner", -1.0),
   ("Wall Interior", -0.6),
   ("Roof Corner", -2.0),
   ("Roof Edge", -1.2),
   ("Roof Interior", -0.9)]

/-- `calculateWindPressure` (`part_001`, lines 118-135):
`q = 0.613·Kz·Kzt·Kd·V²/1000` with `Kz = (height/10)^(2α)`,
`Kzt = 1` for normal topography else 1.15, `Kd = 0.85`.  The source reads the
topography from the enclosing `siteParams`; it is an explicit argument
here. -/
noncomputable def calculateWindPressure (height windSpeed : ℝ)
    (exposure : ExposureCategory) (topography : Topography) : ℝ :=
  let Kz := (height / 10) ^ (2 * exposureAlpha exposure)
  let Kzt := if topography = .normal then 1.0 else 1.15
  let Kd := 0.85
  0.613 * Kz * Kzt * Kd * windSpeed ^ 2 / 1000

/-- Velocity pressure as the specification words it. -/
noncomputable def specVelocityPressure (height windSpeed : ℝ)
    (exposure : ExposureCategory) (topography : Topography) : ℝ :=
  let Kz := (height / 10) ^ (2 * exposureAlpha exposure)
  let Kzt := if topography = .normal then 1.0 else 1.15
  let Kd := 0.85
  0.613 * Kz * Kzt * Kd * windSpeed ^ 2 / 1000

/-- `calculateWindLoads` (`part_001`, lines 137-230): the ordered surface
results for the selected analysis mode. -/
noncomputable def calculateWindLoads (buildingGeom : BuildingGeometry)
    (windSpeed : ℝ) (exposure : ExposureCategory) (topography : Topography)
    (analysisType : AnalysisType) : List WindLoadResult :=
  let qz := calculateWindPressure buildingGeom.height windSpeed exposure topography
  match analysisType with
  | .mwfrs =>
    let wallArea := buildingGeom.width * buildingGeom.height
    let endWallArea := buildingGeom.length * buildingGeom.height
    let roofArea := buildingGeom.length * buildingGeom.width
    let windwardPressure := qz * 0.8
    let leewardPressure := qz * (-0.5)
    let sidePressure := qz * (-0.7)
    let roofCp : ℝ := if buildingGeom.roofType = .flat then -0.7 else -0.9
    let roofPressure := qz * roofCp
    [{ id := "windward", surface := "Windward Wall",
       pressure := windwardPressure, force := windwardPressure * wallArea,
       coefficient := 0.8, area := wallArea },
     { id := "leeward", surface := "Leeward Wall",
       pressure := leewardPressure, force := leewardPressure * wallArea,
       coefficient := -0.5, area := wallArea },
     { id := "sidewall1", surface := "Side Wall 1",
       pressure := sidePressure, force := sidePressure * endWallArea,
       coefficient := -0.7, area := endWallArea },
     { id := "sidewall2", surface := "Side Wall 2",
       pressure := sidePressure, force := sidePressure * endWallArea,
       coefficient := -0.7, area := endWallArea },
     { id := "roof",
       surface := if buildingGeom.roofType = .flat then "Flat Roof" else "Roof",
       pressure := roofPressure, force := roofPressure * roofArea,
       coefficient := roofCp, area := roofArea }]
  | .cc =>
    let effectiveArea : ℝ := 10
    (pressureCoefficients.drop 6).enum.map (fun ic =>
      { id := "cc_" ++ toString ic.1, surface := ic.2.1,
        pressure := qz * ic.2.2, force := qz * ic.2.2 * effectiveArea,
        coefficient := ic.2.2, area := effectiveArea })

/-- Concrete geometry used by the claim's reference computation: the
calculator's default 30 m × 20 m plan with height 10 m and a flat roof. -/
def geomH10 : BuildingGeometry :=
  { length := 30, width := 20, height := 10, roofType := .flat }

end Wind

/-! ## Seismic load engine (source: `part_002`, lines 416-501) -/

namespace Seismic

/-- Site class of the seismic calculator (`part_002`,
`buildingParams.siteClass`: `"A" | "B" | "C" | "D" | "E"`). -/
inductive SiteClass
  | A | B | C | D | E
deriving DecidableEq, Repr

/-- Importance level of the seismic calculator (`part_002`,
`buildingParams.importance`). -/
inductive Importance
  | low | normal | high | postDisaster
deriving DecidableEq, Repr

/-- The intermediate and final values computed by `calculateSeismicLoads`
(`part_002`, lines 416-501). -/
structure SeismicLoadOutput where
  SaDesign02 : ℝ
  SaDesign10 : ℝ
  Ie : ℝ
  Ta : ℝ
  V : ℝ
  Vmin : ℝ
  VDesign : ℝ

/-- `calculateSeismicLoads` (`part_002`, lines 416-501), restricted to its
numeric core: the site coefficients `Fa`/`Fv`, design spectral accelerations,
importance factor, period estimate, base shear `V`, floor `Vmin`, and design
value `VDesign = max(V, Vmin)`.  `Rd`/`Ro` come from the selected structural
system; the source's trailing `: 3.5` defaults are unreachable because the
site-class type has exactly five values.  The source's height ternary for
`Ta` has identical branches and is reproduced as such. -/
noncomputable def calculateSeismicLoads (siteClass : SiteClass)
    (importance : Importance) (sa0p2 sa1p0 height weight Rd Ro : ℝ) :
    SeismicLoadOutput :=
  let Fa : ℝ :=
    match siteClass with
    | .A => 0.8 | .B => 1.0 | .C => 1.2 | .D => 1.6 | .E => 2.5
  let Fv : ℝ :=
    match siteClass with
    | .A => 0.8 | .B => 1.0 | .C => 1.8 | .D => 2.4 | .E => 3.5
  let SaDesign02 := (2 / 3) * Fa * sa0p2
  let SaDesign10 := (2 / 3) * Fv * sa1p0
  let Ie : ℝ :=
    match importance with
    | .low => 0.8 | .normal => 1.0 | .high => 1.3 | .postDisaster => 1.5
  let Ta := if height < 12 then 0.1 * height ^ (0.75 : ℝ)
            else 0.1 * height ^ (0.75 : ℝ)
  let V := SaDesign02 * Ie * weight / (Rd * Ro)
  let Vmin := max (0.005 * weight) (SaDesign10 * Ie * weight / (Rd * Ro))
  let VDesign := max V Vmin
  { SaDesign02 := SaDesign02, SaDesign10 := SaDesign10, Ie := Ie, Ta := Ta,
    V := V, Vmin := Vmin, VDesign := VDesign }

end Seismic

/-! ## Theorems: converter -/

/-- Taylor bounds for `-log (49/50)`, tight enough to locate
`-50 / log (49/50)` strictly between 2474.5 and 2475.5. -/
theorem neg_log_forty_nine_fiftieths_bounds :
    (100 / 4951 : ℝ) < -Real.log (49 / 50) ∧
      -Real.log (49 / 50) < 100 / 4949 := by
  have habs : |(1 / 50 : ℝ)| = 1 / 50 := abs_of_pos (by norm_num)
  have h : |(1 / 50 : ℝ)| < 1 := by rw [habs]; norm_num
  have hb := Real.abs_log_sub_add_sum_range_le h 3
  rw [Finset.sum_range_succ, Finset.sum_range_succ, Finset.sum_range_succ,
    Finset.sum_range_zero, habs, abs_le] at hb
  obtain ⟨h1, h2⟩ := hb
  norm_num at h1 h2
  constructor <;> linarith

/-- C3: the converter returns the fixed fallback 2475 whenever `poe50 ≤ 0` or
`poe50 ≥ 1`, and `round (-50 / log (1 - poe50))` on the open interval (0, 1);
it is a total function (never raises); in particular
`getReturnPeriodFromPoe50 0.02 = 2475` and the saturation values at 0 and 1
are both 2475. -/
theorem getReturnPeriodFromPoe50_spec (poe50 : ℝ) :
    (poe50 ≤ 0 ∨ 1 ≤ poe50 → getReturnPeriodFromPoe50 poe50 = 2475) ∧
    (0 < poe50 → poe50 < 1 →
      getReturnPeriodFromPoe50 poe50 = round (-50 / Real.log (1 - poe50))) ∧
    getReturnPeriodFromPoe50 0.02 = 2475 ∧
    getReturnPeriodFromPoe50 0 = 2475 ∧
    getReturnPeriodFromPoe50 1 = 2475 := by
  refine ⟨fun h => ?_, fun h0 h1 => ?_, ?_, ?_, ?_⟩
  · rw [getReturnPeriodFromPoe50, if_pos h]
  · rw [getReturnPeriodFromPoe50, if_neg (by push_neg; exact ⟨h0, h1⟩)]
  · have hb := neg_log_forty_nine_fiftieths_bounds
    have hlogneg : Real.log (49 / 50) < 0 := by nlinarith [hb.1, hb.2]
    have h2 : (1 : ℝ) - 0.02 = 49 / 50 := by norm_num
    rw [getReturnPeriodFromPoe50, if_neg (by norm_num), h2, round_eq]
    have hx : (2475 : ℝ) ≤ -50 / Real.log (49 / 50) + 1 / 2 := by
      rw [div_add' _ _ _ (by linarith), le_div_iff_of_neg hlogneg]
      nlinarith [hb.2]
    have hy : -50 / Real.log (49 / 50) + 1 / 2 < 2476 := by
      rw [div_add' _ _ _ (by linarith), div_lt_iff_of_neg hlogneg]
      nlinarith [hb.1]
    rw [Int.floor_eq_iff]
    constructor
    · exact_mod_cast hx
    · push_cast
      linarith
  · rw [getReturnPeriodFromPoe50, if_pos (Or.inl le_rfl)]
  · rw [getReturnPeriodFromPoe50, if_pos (Or.inr le_rfl)]

/-- Witness for C3: the non-saturated branch at the concrete probability 1/2,
and a saturated branch at 0. -/
theorem getReturnPeriodFromPoe50_spec_witness :
    getReturnPeriodFromPoe50 (1 / 2) = round (-50 / Real.log (1 - 1 / 2)) ∧
    getReturnPeriodFromPoe50 0 = 2475 :=
  ⟨(getReturnPeriodFromPoe50_spec (1 / 2)).2.1 (by norm_num) (by norm_num),
   ((getReturnPeriodFromPoe50_spec 0).2.2.2.1)⟩

/-- C4: for every return period `T > 0` whose image under
`getPoe50FromReturnPeriod` lies strictly between 0 and 1, the round trip
through the two converters gives back exactly `round T`, hence agrees with `T`
to within 1. -/
theorem returnPeriod_roundtrip (T : ℝ) (hT : 0 < T)
    (h0 : 0 < getPoe50FromReturnPeriod T) (h1 : getPoe50FromReturnPeriod T < 1) :
    getReturnPeriodFromPoe50 (getPoe50FromReturnPeriod T) = round T ∧
    |(round T : ℝ) - T| ≤ 1 := by
  constructor
  · rw [getReturnPeriodFromPoe50, if_neg (by push_neg; exact ⟨h0, h1⟩)]
    rw [getPoe50FromReturnPeriod]
    have he : (1 : ℝ) - (1 - Real.exp (-50 / T)) = Real.exp (-50 / T) := by ring
    rw [he, Real.log_exp]
    congr 1
    field_simp
  · have h := abs_sub_round T
    rw [abs_sub_comm] at h
    linarith [h]

/-- Witness for C4: the round trip at the reference return period 2475 years
gives back exactly 2475. -/
theorem returnPeriod_roundtrip_witness :
    getReturnPeriodFromPoe50 (getPoe50FromReturnPeriod 2475) = 2475 := by
  have h0 : 0 < getPoe50FromReturnPeriod 2475 := by
    rw [getPoe50FromReturnPeriod]
    have : Real.exp (-50 / 2475) < 1 := Real.exp_lt_one_iff.mpr (by norm_num)
    linarith
  have h1 : getPoe50FromReturnPeriod 2475 < 1 := by
    rw [getPoe50FromReturnPeriod]
    have := Real.exp_pos (-50 / 2475)
    linarith
  have h := (returnPeriod_roundtrip 2475 (by norm_num) h0 h1).1
  rw [h]
  norm_num [round_eq]

/-! ## Theorems: hazard data resolver -/

namespace CanSHM

/-- The site-class stage yields nothing exactly when it is unusable in the
source's sense (request rejected, `NBC2020` falsy, or `siteDesignationsXs`
absent). -/
theorem stage1Result_eq_none_iff (xsResult : Except Unit (Option CanSHM6Point))
    (latitude longitude : ℚ) (siteClass : CanSHM6SiteClass)
    (returnPeriods : List ℚ) :
    stage1Result xsResult latitude longitude siteClass returnPeriods = none ↔
      xsUsable xsResult = false := by
  rcases xsResult with e | o
  · simp [stage1Result, xsUsable]
  · rcases o with _ | pt
    · simp [stage1Result, xsUsable]
    · rcases hd : pt.siteDesignationsXs with _ | ds <;>
        simp [stage1Result, xsUsable, hd, processSiteDesignations]

/-- A usable site-class response resolves to one record per designation. -/
theorem stage1Result_of_usable (pt : CanSHM6Point)
    (ds : List CanSHM6SiteDesignation) (hd : pt.siteDesignationsXs = some ds)
    (latitude longitude : ℚ) (siteClass : CanSHM6SiteClass)
    (returnPeriods : List ℚ) :
    stage1Result (.ok (some pt)) latitude longitude siteClass returnPeriods =
      some (ds.map (designationToRecord pt latitude longitude siteClass .siteClass)) := by
  simp [stage1Result, processSiteDesignations, hd]

/-- The vs30 stage yields nothing exactly when it is unusable in the source's
sense. -/
theorem stage2Result_eq_none_iff (xvResult : Except Unit (Option CanSHM6Point))
    (latitude longitude : ℚ) (siteClass : CanSHM6SiteClass)
    (returnPeriods : List ℚ) :
    stage2Result xvResult latitude longitude siteClass returnPeriods = none ↔
      xvUsable xvResult = false := by
  rcases xvResult with e | o
  · simp [stage2Result, xvUsable]
  · rcases o with _ | pt
    · simp [stage2Result, xvUsable]
    · rcases hd : pt.siteDesignationsXv with _ | ds <;>
        simp [stage2Result, xvUsable, hd, processSiteDesignations]

/-- A usable vs30 response resolves to one record per designation. -/
theorem stage2Result_of_usable (pt : CanSHM6Point)
    (ds : List CanSHM6SiteDesignation) (hd : pt.siteDesignationsXv = some ds)
    (latitude longitude : ℚ) (siteClass : CanSHM6SiteClass)
    (returnPeriods : List ℚ) :
    stage2Result (.ok (some pt)) latitude longitude siteClass returnPeriods =
      some (ds.map (designationToRecord pt latitude longitude siteClass .vs30)) := by
  simp [stage2Result, processSiteDesignations, hd]

end CanSHM

namespace CanSHM

/-- C2 (amended): the soil-velocity query is attempted exactly when the
site-classification stage is unusable — which in the code means the request
rejected or the payload lacks a designation sequence; a *present but empty*
designation sequence counts as usable.  Whenever a remote stage succeeds with
a present designation sequence, the resolver returns the records derived from
that response (one per designation) and does not consult the static fallback
table. -/
theorem resolver_stage_protocol (xsResult xvResult : Except Unit (Option CanSHM6Point))
    (latitude longitude : ℚ) (siteClass : CanSHM6SiteClass) (returnPeriods : List ℚ) :
    (Stage.vs30Query ∈ (getSeismicHazardDataBySiteClassTraced xsResult xvResult
        latitude longitude siteClass returnPeriods).2 ↔ xsUsable xsResult = false) ∧
    (∀ pt ds, xsResult = .ok (some pt) → pt.siteDesignationsXs = some ds →
      (getSeismicHazardDataBySiteClassTraced xsResult xvResult
          latitude longitude siteClass returnPeriods).1 =
        ds.map (designationToRecord pt latitude longitude siteClass .siteClass) ∧
      Stage.fallbackTable ∉ (getSeismicHazardDataBySiteClassTraced xsResult xvResult
          latitude longitude siteClass returnPeriods).2) ∧
    (∀ pt ds, xsUsable xsResult = false → xvResult = .ok (some pt) →
      pt.siteDesignationsXv = some ds →
      (getSeismicHazardDataBySiteClassTraced xsResult xvResult
          latitude longitude siteClass returnPeriods).1 =
        ds.map (designationToRecord pt latitude longitude siteClass .vs30) ∧
      Stage.fallbackTable ∉ (getSeismicHazardDataBySiteClassTraced xsResult xvResult
          latitude longitude siteClass returnPeriods).2) := by
  refine ⟨?_, ?_, ?_⟩
  · rcases h1 : stage1Result xsResult latitude longitude siteClass returnPeriods with _ | r
    · have hu : xsUsable xsResult = false :=
        (stage1Result_eq_none_iff xsResult latitude longitude siteClass returnPeriods).mp h1
      rcases h2 : stage2Result xvResult latitude longitude siteClass returnPeriods with _ | r
      · rcases h3 : FALLBACK_SEISMIC_DATA.find? (fun d =>
            decide (|d.latitude - latitude| < 0.1) &&
            decide (|d.longitude - longitude| < 0.1)) with _ | fb <;>
          simp [getSeismicHazardDataBySiteClassTraced, h1, h2, h3, hu]
      · simp [getSeismicHazardDataBySiteClassTraced, h1, h2, hu]
    · have hu : ¬ xsUsable xsResult = false := by
        intro hc
        rw [← stage1Result_eq_none_iff xsResult latitude longitude siteClass returnPeriods] at hc
        rw [h1] at hc
        exact Option.some_ne_none r hc
      simp [getSeismicHazardDataBySiteClassTraced, h1, hu]
  · rintro pt ds rfl hds
    have h1 := stage1Result_of_usable pt ds hds latitude longitude siteClass returnPeriods
    constructor <;> simp [getSeismicHazardDataBySiteClassTraced, h1]
  · rintro pt ds hu rfl hds
    have h1 : stage1Result xsResult latitude longitude siteClass returnPeriods = none :=
      (stage1Result_eq_none_iff xsResult latitude longitude siteClass returnPeriods).mpr hu
    have h2 := stage2Result_of_usable pt ds hds latitude longitude siteClass returnPeriods
    constructor <;> simp [getSeismicHazardDataBySiteClassTraced, h1, h2]

/-- Counterexample to C2 as stated: the site-class response carries a
*present but empty* designation sequence (unusable by the claim's definition
of usability) and the soil-velocity response carries a non-empty one, yet the
resolver stops after the site-class stage — the soil-velocity query is never
attempted — and it returns the empty record list rather than records derived
from the soil-velocity response. -/
theorem resolver_stage_protocol_cex :
    (getSeismicHazardDataBySiteClassTraced (.ok (some ptEmptyXs)) (.ok (some ptOneXv))
        0 0 .C [0.02]).2 = [Stage.siteClassQuery] ∧
    (getSeismicHazardDataBySiteClassTraced (.ok (some ptEmptyXs)) (.ok (some ptOneXv))
        0 0 .C [0.02]).1 = [] ∧
    ptEmptyXs.siteDesignationsXs = some [] ∧
    ptOneXv.siteDesignationsXv = some [{ sa0p2 := some 0.35, sa1p0 := some 0.10 }] :=
  ⟨rfl, rfl, rfl, rfl⟩

/-- Witness for C2 (amended): a rejected site-class request followed by a
fulfilled soil-velocity response with one designation — the vs30 stage is
attempted and its derived records are returned. -/
theorem resolver_stage_protocol_witness :
    Stage.vs30Query ∈ (getSeismicHazardDataBySiteClassTraced (.error ()) (.ok (some ptOneXv))
        0 0 .C [0.02]).2 ∧
    (getSeismicHazardDataBySiteClassTraced (.error ()) (.ok (some ptOneXv))
        0 0 .C [0.02]).1 =
      ([{ sa0p2 := some 0.35, sa1p0 := some 0.10 }] : List CanSHM6SiteDesignation).map
        (designationToRecord ptOneXv 0 0 .C .vs30) := by
  have h := resolver_stage_protocol (.error ()) (.ok (some ptOneXv)) 0 0 .C [0.02]
  exact ⟨h.1.mpr rfl, (h.2.2 ptOneXv [{ sa0p2 := some 0.35, sa1p0 := some 0.10 }]
    rfl rfl rfl).1⟩

end CanSHM

namespace CanSHM

/-- C1 (amended): `getSeismicHazardDataBySiteClass` never raises (its
embedding is total, mirroring the outer `catch`), and it returns exactly one
synthetic record when both remote stages are unusable; when the stage it uses
succeeds with a designation sequence it returns exactly one record per
designation — so an *empty* remote designation sequence yields an empty
result list.  `getSeismicHazardWithFallback` returns the remote record when
the remote call fulfills, and on a rejected remote call it succeeds exactly
when the nearest catalog city has a fallback entry, raising
`'No fallback data available'` otherwise. -/
theorem resolver_degrade_contract (xsResult xvResult : Except Unit (Option CanSHM6Point))
    (latitude longitude : ℚ) (siteClass : CanSHM6SiteClass) (returnPeriods : List ℚ) :
    (xsUsable xsResult = false → xvUsable xvResult = false →
      (getSeismicHazardDataBySiteClass xsResult xvResult latitude longitude
          siteClass returnPeriods).length = 1) ∧
    (∀ pt ds, xsResult = .ok (some pt) → pt.siteDesignationsXs = some ds →
      (getSeismicHazardDataBySiteClass xsResult xvResult latitude longitude
          siteClass returnPeriods).length = ds.length) ∧
    (∀ pt ds, xsUsable xsResult = false → xvResult = .ok (some pt) →
      pt.siteDesignationsXv = some ds →
      (getSeismicHazardDataBySiteClass xsResult xvResult latitude longitude
          siteClass returnPeriods).length = ds.length) ∧
    (∀ d : SeismicApi.SeismicHazardData,
      SeismicApi.getSeismicHazardWithFallback (.ok d) latitude longitude = .ok d) ∧
    (∀ e : Unit,
      (SeismicApi.getSeismicHazardWithFallback (.error e) latitude longitude).isOk =
        (SeismicApi.FALLBACK_SEISMIC_DATA.lookup
          (SeismicApi.closestCity latitude longitude).name).isSome) := by
  refine ⟨?_, ?_, ?_, fun d => rfl, ?_⟩
  · intro hxs hxv
    have h1 : stage1Result xsResult latitude longitude siteClass returnPeriods = none :=
      (stage1Result_eq_none_iff xsResult latitude longitude siteClass returnPeriods).mpr hxs
    have h2 : stage2Result xvResult latitude longitude siteClass returnPeriods = none :=
      (stage2Result_eq_none_iff xvResult latitude longitude siteClass returnPeriods).mpr hxv
    rcases h3 : FALLBACK_SEISMIC_DATA.find? (fun d =>
        decide (|d.latitude - latitude| < 0.1) &&
        decide (|d.longitude - longitude| < 0.1)) with _ | fb <;>
      simp [getSeismicHazardDataBySiteClass, getSeismicHazardDataBySiteClassTraced,
        h1, h2, h3]
  · rintro pt ds rfl hds
    have h1 := stage1Result_of_usable pt ds hds latitude longitude siteClass returnPeriods
    simp [getSeismicHazardDataBySiteClass, getSeismicHazardDataBySiteClassTraced, h1]
  · rintro pt ds hu rfl hds
    have h1 : stage1Result xsResult latitude longitude siteClass returnPeriods = none :=
      (stage1Result_eq_none_iff xsResult latitude longitude siteClass returnPeriods).mpr hu
    have h2 := stage2Result_of_usable pt ds hds latitude longitude siteClass returnPeriods
    simp [getSeismicHazardDataBySiteClass, getSeismicHazardDataBySiteClassTraced, h1, h2]
  · intro e
    unfold SeismicApi.getSeismicHazardWithFallback
    dsimp only
    rcases SeismicApi.FALLBACK_SEISMIC_DATA.lookup
        (SeismicApi.closestCity latitude longitude).name with _ | fd
    · rfl
    · rfl

/-- Counterexample to C1 as stated: (a) a fulfilled site-class response whose
designation sequence is present but empty makes
`getSeismicHazardDataBySiteClass` return the empty list — not "at least one
hazard record"; (b) with the remote call rejected and the query at Saskatoon
(a catalog city with no fallback entry), `getSeismicHazardWithFallback`
raises `'No fallback data available'` to its caller. -/
theorem resolver_degrade_contract_cex :
    getSeismicHazardDataBySiteClass (.ok (some ptEmptyXs)) (.ok (some ptOneXv))
        0 0 .C [0.02] = [] ∧
    SeismicApi.getSeismicHazardWithFallback (.error ()) 52.1332 (-106.6700) =
      .error "No fallback data available" := by
  constructor
  · rfl
  · have hcc : (SeismicApi.closestCity 52.1332 (-106.6700)).name = "Saskatoon" := by
      norm_num [SeismicApi.closestCity, SeismicApi.MAJOR_CITIES, SeismicApi.sqDistance,
        List.foldl]
    have hlk : SeismicApi.FALLBACK_SEISMIC_DATA.lookup
        (SeismicApi.closestCity 52.1332 (-106.6700)).name = none := by
      rw [hcc]
      simp [SeismicApi.FALLBACK_SEISMIC_DATA, List.lookup]
    unfold SeismicApi.getSeismicHazardWithFallback
    dsimp only
    rw [hlk]

/-- Witness for C1 (amended): with both remote stages rejected the resolver
still returns exactly one (synthetic) record, and the nearest-city variant
queried at Vancouver succeeds on a rejected remote call. -/
theorem resolver_degrade_contract_witness :
    (getSeismicHazardDataBySiteClass (.error ()) (.error ()) 0 0 .C [0.02]).length = 1 ∧
    (SeismicApi.getSeismicHazardWithFallback (.error ()) 49.2827 (-123.1207)).isOk = true := by
  constructor
  · exact (resolver_degrade_contract (.error ()) (.error ()) 0 0 .C [0.02]).1 rfl rfl
  · rw [(resolver_degrade_contract (.error ()) (.error ()) 49.2827 (-123.1207)
      .C [0.02]).2.2.2.2 ()]
    have hcc : (SeismicApi.closestCity 49.2827 (-123.1207)).name = "Vancouver" := by
      norm_num [SeismicApi.closestCity, SeismicApi.MAJOR_CITIES, SeismicApi.sqDistance,
        List.foldl]
    rw [hcc]
    simp [SeismicApi.FALLBACK_SEISMIC_DATA, List.lookup]

end CanSHM

/-! ## Theorems: snow load engine -/

namespace Snow

/-- C5: the snow engine returns exactly the pair
`S = Is · [Ss·(Cb·Cw·Cs·Ca) + Sr]`, computed once with the ULS and once with
the SLS importance factor, where the importance pair comes from the fixed
four-entry table low (0.8, 0.9), normal (1.0, 0.9), high (1.15, 0.9),
post-disaster (1.25, 0.9), and the accumulation factor is identically 1.0. -/
theorem calculateSnowLoads_formula (Ss Sr : ℝ) (rp : RoofParams)
    (cat : ImportanceCategory) :
    calculateImportanceFactors cat = (specIsULS cat, specIsSLS cat) ∧
    calculateAccumulationFactor = 1.0 ∧
    calculateSnowLoads Ss Sr rp cat =
      (specIsULS cat *
        (Ss * (calculateBasicRoofSnowLoadFactor rp.height Ss
            (calculateCharacteristicLength rp)
            (calculateWindExposureFactor cat rp.terrainType) *
          calculateWindExposureFactor cat rp.terrainType *
          calculateSlopeFactor rp * 1.0) + Sr),
       specIsSLS cat *
        (Ss * (calculateBasicRoofSnowLoadFactor rp.height Ss
            (calculateCharacteristicLength rp)
            (calculateWindExposureFactor cat rp.terrainType) *
          calculateWindExposureFactor cat rp.terrainType *
          calculateSlopeFactor rp * 1.0) + Sr)) := by
  refine ⟨?_, rfl, ?_⟩ <;> cases cat <;> rfl

/-- C6: wherever the height test selects the length-dependent regime, the two
`Cb` branches agree at the threshold `lc = 70/Cw²`: the piecewise factor
takes its `0.8` branch there and the exponential branch also evaluates to
`0.8`, so the transition is continuous in `lc` at the threshold. -/
theorem roofFactor_branches_agree (Ss height Cw : ℝ) (hCw : 0 < Cw)
    (hh : ¬ height < 1 + Ss / calculateSpecificWeightOfSnow Ss) :
    calculateBasicRoofSnowLoadFactor height Ss (70 / (Cw * Cw)) Cw = 0.8 ∧
    roofFactorExpBranch Cw (70 / (Cw * Cw)) = 0.8 := by
  have hCw2 : Cw * Cw ≠ 0 := by positivity
  constructor
  · unfold calculateBasicRoofSnowLoadFactor
    rw [if_neg hh, if_pos le_rfl]
  · unfold roofFactorExpBranch
    have hz : 70 / (Cw * Cw) * Cw * Cw - 70 = 0 := by
      field_simp
      ring
    rw [hz]
    norm_num [Real.exp_zero]
    field_simp

/-- Witness for C6: at `Cw = 1`, `Ss = 2` and height 10 (above the critical
height) both branches give `0.8` at the threshold `lc = 70`. -/
theorem roofFactor_branches_agree_witness :
    (0 : ℝ) < 1 ∧
    ¬ (10 : ℝ) < 1 + 2 / calculateSpecificWeightOfSnow 2 ∧
    calculateBasicRoofSnowLoadFactor 10 2 (70 / (1 * 1)) 1 = 0.8 ∧
    roofFactorExpBranch 1 (70 / (1 * 1)) = 0.8 := by
  have hh : ¬ (10 : ℝ) < 1 + 2 / calculateSpecificWeightOfSnow 2 := by
    unfold calculateSpecificWeightOfSnow
    norm_num [min_def]
  have h := roofFactor_branches_agree 2 10 1 (by norm_num) hh
  exact ⟨by norm_num, hh, h.1, h.2⟩

/-- C7: the snow wind exposure factor is 1.0 except 0.75 on rural and 0.5 on
exposed-north terrain, with the reductions applied only to the low and normal
importance categories; high and post-disaster always get 1.0. -/
theorem windExposure_matches_spec (cat : ImportanceCategory) (t : TerrainType) :
    calculateWindExposureFactor cat t = specWindExposure cat t := by
  cases cat <;> cases t <;> rfl

end Snow

namespace Snow

/-- The wind exposure factor only takes the values 0.5, 0.75 and 1.0, all
positive and at most 1. -/
theorem windExposure_pos_le_one (cat : ImportanceCategory) (t : TerrainType) :
    0 < calculateWindExposureFactor cat t ∧ calculateWindExposureFactor cat t ≤ 1 := by
  cases cat <;> cases t <;> simp [calculateWindExposureFactor] <;> norm_num

/-- The slope factor is nonnegative in every branch. -/
theorem slopeFactor_nonneg (rp : RoofParams) : 0 ≤ calculateSlopeFactor rp := by
  unfold calculateSlopeFactor
  dsimp only
  split_ifs with h1 h2 h3 h4 h5 <;> try norm_num
  · apply div_nonneg <;> linarith
  · apply div_nonneg <;> linarith

/-- The basic roof factor is nonnegative for every wind exposure factor in
(0, 1]: the short-roof branches are 1.0 and 0.8, and in the exponential
branch the damping term `(1 - 0.8·Cw)·exp(-(lc·Cw² - 70)/100)` lies in
[0, 1 - 0.8·Cw], leaving at least `0.8`. -/
theorem roofFactor_nonneg (height Ss lc Cw : ℝ) (h0 : 0 < Cw) (h1 : Cw ≤ 1) :
    0 ≤ calculateBasicRoofSnowLoadFactor height Ss lc Cw := by
  unfold calculateBasicRoofSnowLoadFactor
  dsimp only
  split_ifs with hh hlc
  · norm_num
  · norm_num
  · unfold roofFactorExpBranch
    push_neg at hlc
    have hcc : 0 < Cw * Cw := mul_pos h0 h0
    have h70 : (70 : ℝ) < lc * Cw * Cw := by
      have h := (div_lt_iff₀ hcc).mp hlc
      nlinarith
    have hexp : Real.exp (-(lc * Cw * Cw - 70) / 100) ≤ 1 := by
      rw [Real.exp_le_one_iff]
      apply div_nonpos_of_nonpos_of_nonneg <;> linarith
    have hepos : 0 < Real.exp (-(lc * Cw * Cw - 70) / 100) := Real.exp_pos _
    have hcoef : 0 ≤ 1 - 0.8 * Cw := by linarith
    have hprod : (1 - 0.8 * Cw) * Real.exp (-(lc * Cw * Cw - 70) / 100) ≤ 1 - 0.8 * Cw :=
      mul_le_of_le_one_right hcoef hexp
    have hinner : 0 ≤ 1 - (1 - 0.8 * Cw) * Real.exp (-(lc * Cw * Cw - 70) / 100) := by
      nlinarith
    have hfrac : 0 ≤ 1 / Cw := by positivity
    exact mul_nonneg hfrac hinner

/-- With nonnegative ground-snow and rain loads the bracket
`Ss·(Cb·Cw·Cs·Ca) + Sr` is nonnegative. -/
theorem snowBracket_nonneg (Ss Sr : ℝ) (rp : RoofParams)
    (cat : ImportanceCategory) (hS : 0 ≤ Ss) (hR : 0 ≤ Sr) :
    0 ≤ snowBracket Ss Sr rp cat := by
  unfold snowBracket
  dsimp only
  have hw := windExposure_pos_le_one cat rp.terrainType
  have hb := roofFactor_nonneg rp.height Ss (calculateCharacteristicLength rp)
    (calculateWindExposureFactor cat rp.terrainType) hw.1 hw.2
  have hs := slopeFactor_nonneg rp
  have hca : (0 : ℝ) ≤ calculateAccumulationFactor := by
    norm_num [calculateAccumulationFactor]
  have hterm : 0 ≤ Ss * (calculateBasicRoofSnowLoadFactor rp.height Ss
      (calculateCharacteristicLength rp)
      (calculateWindExposureFactor cat rp.terrainType) *
    calculateWindExposureFactor cat rp.terrainType *
    calculateSlopeFactor rp * calculateAccumulationFactor) :=
    mul_nonneg hS (mul_nonneg (mul_nonneg (mul_nonneg hb hw.1.le) hs) hca)
  linarith

/-- C10: in the snow engine, whenever the bracket `Ss·(Cb·Cw·Cs·Ca) + Sr` is
strictly positive, the low importance category produces an SLS load strictly
above its ULS load (0.9 versus 0.8); for the other three categories, on the
engine's domain of nonnegative `Ss` and `Sr`, the ULS load is at least the
SLS load (1.0, 1.15, 1.25 versus 0.9 on a nonnegative bracket). -/
theorem snow_uls_sls_ordering (Ss Sr : ℝ) (rp : RoofParams)
    (cat : ImportanceCategory) :
    (cat = .low → 0 < snowBracket Ss Sr rp cat →
      (calculateSnowLoads Ss Sr rp cat).1 < (calculateSnowLoads Ss Sr rp cat).2) ∧
    (cat ≠ .low → 0 ≤ Ss → 0 ≤ Sr →
      (calculateSnowLoads Ss Sr rp cat).2 ≤ (calculateSnowLoads Ss Sr rp cat).1) := by
  constructor
  · rintro rfl hpos
    simp only [calculateSnowLoads, calculateImportanceFactors]
    nlinarith
  · intro hne hS hR
    have hB := snowBracket_nonneg Ss Sr rp cat hS hR
    cases cat with
    | low => exact absurd rfl hne
    | normal =>
      simp only [calculateSnowLoads, calculateImportanceFactors]
      nlinarith
    | high =>
      simp only [calculateSnowLoads, calculateImportanceFactors]
      nlinarith
    | postDisaster =>
      simp only [calculateSnowLoads, calculateImportanceFactors]
      nlinarith

/-- Witness for C10: on the concrete square roof with `Ss = 2`, `Sr = 1` the
bracket is 2.6 > 0, the low category gives SLS > ULS, and the normal
category gives ULS ≥ SLS. -/
theorem snow_uls_sls_ordering_witness :
    0 < snowBracket 2 1 roofSquare10 .low ∧
    (calculateSnowLoads 2 1 roofSquare10 .low).1 <
      (calculateSnowLoads 2 1 roofSquare10 .low).2 ∧
    (calculateSnowLoads 2 1 roofSquare10 .normal).2 ≤
      (calculateSnowLoads 2 1 roofSquare10 .normal).1 := by
  have hCw : calculateWindExposureFactor ImportanceCategory.low
      roofSquare10.terrainType = 1 := by
    simp [calculateWindExposureFactor, roofSquare10]
    norm_num
  have hlc : calculateCharacteristicLength roofSquare10 = 10 := by
    norm_num [calculateCharacteristicLength, roofSquare10]
  have hgamma : calculateSpecificWeightOfSnow 2 = 3.06 := by
    norm_num [calculateSpecificWeightOfSnow, min_def]
  have hCb : calculateBasicRoofSnowLoadFactor roofSquare10.height 2 10 1 = 0.8 := by
    unfold calculateBasicRoofSnowLoadFactor
    rw [hgamma]
    rw [if_neg (by norm_num [roofSquare10]), if_pos (by norm_num)]
  have hCs : calculateSlopeFactor roofSquare10 = 1 := by
    norm_num [calculateSlopeFactor, roofSquare10]
  have hpos : 0 < snowBracket 2 1 roofSquare10 .low := by
    unfold snowBracket
    dsimp only
    rw [hCw, hlc, hCb, hCs]
    norm_num [calculateAccumulationFactor]
  have h := snow_uls_sls_ordering 2 1 roofSquare10 ImportanceCategory.low
  have hn := snow_uls_sls_ordering 2 1 roofSquare10 ImportanceCategory.normal
  exact ⟨hpos, h.1 rfl hpos, hn.2 (by simp) (by norm_num) (by norm_num)⟩

end Snow

/-! ## Theorems: wind load engine -/

namespace Wind

/-- C9: the velocity pressure is exactly
`q = 0.613·Kz·Kzt·Kd·V²/1000` with `Kz = (height/10)^(2α)` from the exposure
table, `Kzt = 1.0` for normal topography else 1.15, and `Kd = 0.85`; at the
reference point (exposure B, height 10 m, `V = 30` m/s, normal topography)
`Kz = 1`, `q = 0.613·1·1·0.85·900/1000 ≈ 0.469` kN/m², and the windward-wall
pressure of the system-level results is `0.8·q ≈ 0.375` kN/m². -/
theorem windPressure_spec :
    (∀ (height windSpeed : ℝ) (e : ExposureCategory) (t : Topography),
      calculateWindPressure height windSpeed e t =
        specVelocityPressure height windSpeed e t) ∧
    ((10 / 10 : ℝ) ^ (2 * exposureAlpha .B) = 1) ∧
    calculateWindPressure 10 30 .B .normal = 0.613 * 1 * 1 * 0.85 * 900 / 1000 ∧
    |calculateWindPressure 10 30 .B .normal - 0.469| < 0.001 ∧
    ((calculateWindLoads geomH10 30 .B .normal .mwfrs).map
        WindLoadResult.pressure).head? =
      some (0.8 * calculateWindPressure 10 30 .B .normal) ∧
    |0.8 * calculateWindPressure 10 30 .B .normal - 0.375| < 0.001 := by
  have hKz : ((10 : ℝ) / 10) ^ (2 * exposureAlpha .B) = 1 := by
    rw [show ((10 : ℝ) / 10) = 1 by norm_num, Real.one_rpow]
  have hq : calculateWindPressure 10 30 .B .normal =
      0.613 * 1 * 1 * 0.85 * 900 / 1000 := by
    unfold calculateWindPressure
    dsimp only
    rw [hKz]
    norm_num
  refine ⟨fun height windSpeed e t => rfl, hKz, hq, ?_, ?_, ?_⟩
  · rw [hq]
    rw [abs_lt]
    constructor <;> norm_num
  · unfold calculateWindLoads
    dsimp only [geomH10]
    rw [mul_comm]
    rfl
  · rw [hq]
    rw [abs_lt]
    constructor <;> norm_num

end Wind

/-! ## Theorems: seismic load engine -/

namespace Seismic

/-- C8: the design base shear is `VDesign = max(V, Vmin)` with
`Vmin = max(0.005·W, SaDesign(1.0s)·Ie·W/(Rd·Ro))`; whenever `V < Vmin` the
design value equals `Vmin`, and the design base shear is never below
`0.005·W`. -/
theorem seismic_base_shear_floor (siteClass : SiteClass) (importance : Importance)
    (sa0p2 sa1p0 height weight Rd Ro : ℝ) :
    (calculateSeismicLoads siteClass importance sa0p2 sa1p0 height weight Rd Ro).VDesign =
      max (calculateSeismicLoads siteClass importance sa0p2 sa1p0 height weight Rd Ro).V
        (calculateSeismicLoads siteClass importance sa0p2 sa1p0 height weight Rd Ro).Vmin ∧
    (calculateSeismicLoads siteClass importance sa0p2 sa1p0 height weight Rd Ro).Vmin =
      max (0.005 * weight)
        ((calculateSeismicLoads siteClass importance sa0p2 sa1p0 height weight Rd Ro).SaDesign10 *
          (calculateSeismicLoads siteClass importance sa0p2 sa1p0 height weight Rd Ro).Ie *
          weight / (Rd * Ro)) ∧
    ((calculateSeismicLoads siteClass importance sa0p2 sa1p0 height weight Rd Ro).V <
        (calculateSeismicLoads siteClass importance sa0p2 sa1p0 height weight Rd Ro).Vmin →
      (calculateSeismicLoads siteClass importance sa0p2 sa1p0 height weight Rd Ro).VDesign =
        (calculateSeismicLoads siteClass importance sa0p2 sa1p0 height weight Rd Ro).Vmin) ∧
    0.005 * weight ≤
      (calculateSeismicLoads siteClass importance sa0p2 sa1p0 height weight Rd Ro).VDesign := by
  refine ⟨rfl, rfl, fun h => max_eq_right h.le, ?_⟩
  exact le_trans (le_max_left _ _) (le_max_right _ _)

/-- Witness for C8: a concrete case where the floor binds — `Sa(0.2s) = 0`,
`Sa(1.0s) = 0.1`, site class C, normal importance, `W = 1000`, `Rd·Ro = 5` —
giving `V = 0 < Vmin = 24` and `VDesign = Vmin`. -/
theorem seismic_base_shear_floor_witness :
    (calculateSeismicLoads .C .normal 0 0.1 10 1000 5 1).V <
      (calculateSeismicLoads .C .normal 0 0.1 10 1000 5 1).Vmin ∧
    (calculateSeismicLoads .C .normal 0 0.1 10 1000 5 1).VDesign =
      (calculateSeismicLoads .C .normal 0 0.1 10 1000 5 1).Vmin := by
  have h : (calculateSeismicLoads .C .normal 0 0.1 10 1000 5 1).V <
      (calculateSeismicLoads .C .normal 0 0.1 10 1000 5 1).Vmin := by
    unfold calculateSeismicLoads
    dsimp only
    rw [lt_max_iff]
    left
    norm_num
  exact ⟨h, (seismic_base_shear_floor .C .normal 0 0.1 10 1000 5 1).2.2.1 h⟩

end Seismic
